import Mathlib

/-
Verification development for the get-app-apple-wallet registration and
notification subsystem.

The definitions below are a shallow embedding of the JavaScript source:
  - src/convex/registrations.js   (Convex store mutations and queries)
  - src/convex/pushNotifications.js (push dispatch tick)
  - src/src/db.js                 (SQLite find-or-create layer)
  - src/src/worker.js             (store-backed request authentication)

Convex documents are modelled as association lists of (id, row) pairs with a
shared id counter; `ctx.db.insert` appends a row under the next id,
`ctx.db.patch` rewrites the row with a given id, `ctx.db.delete` removes it,
`.unique()` lookups become `List.find?`, and `Date.now()` becomes an explicit
clock argument.
-/

/-- JavaScript parseInt with radix 10: skip leading whitespace, read an
optional sign and a maximal digit prefix; `none` models NaN. -/
def jsParseInt (s : String) : Option Int :=
  let cs := s.toList.dropWhile Char.isWhitespace
  let signed : Int × List Char :=
    match cs with
    | '-' :: rest => (-1, rest)
    | '+' :: rest => (1, rest)
    | _ => (1, cs)
  let ds := signed.2.takeWhile Char.isDigit
  if ds.isEmpty then none
  else some (signed.1 * (ds.foldl (fun acc c => acc * 10 + (c.toNat - 48)) 0 : Nat))

/-- The computation `args.passesUpdatedSince ? parseInt(args.passesUpdatedSince, 10) || 0 : 0`
from src/convex/registrations.js line 181: an absent or null argument, the
empty string (falsy), a NaN parse, or a parse equal to 0 all yield 0. -/
def sinceTimestampOf (arg : Option String) : Int :=
  match arg with
  | none => 0
  | some s =>
    if s = "" then 0
    else
      match jsParseInt s with
      | none => 0
      | some n => if n = 0 then 0 else n

/-- A row of the `devices` table (src/unnamed schema, convex/schema.js). -/
structure Device where
  deviceLibraryIdentifier : String
  pushToken : String
deriving DecidableEq, Repr

/-- A row of the `passes` table. -/
structure Pass where
  passTypeIdentifier : String
  serialNumber : String
  authenticationToken : String
  lastUpdated : Nat
deriving DecidableEq, Repr

/-- A row of the `registrations` table: the device-to-pass join entity. -/
structure Registration where
  deviceId : Nat
  passId : Nat
deriving DecidableEq, Repr

/-- The Convex store: three tables of (document id, row) pairs plus the next
fresh document id. -/
structure DB where
  devices : List (Nat × Device)
  passes : List (Nat × Pass)
  registrations : List (Nat × Registration)
  nextId : Nat
deriving DecidableEq, Repr

/-- Query `devices.withIndex(by_device_lib_id).unique()`. -/
def findDevice? (db : DB) (lib : String) : Option (Nat × Device) :=
  db.devices.find? (fun r => r.2.deviceLibraryIdentifier == lib)

/-- Query `passes.withIndex(by_pass_type_and_serial).unique()`. -/
def findPass? (db : DB) (ptype serial : String) : Option (Nat × Pass) :=
  db.passes.find? (fun r => r.2.passTypeIdentifier == ptype && r.2.serialNumber == serial)

/-- Query `registrations.withIndex(by_device_and_pass).unique()`. -/
def findReg? (db : DB) (did pid : Nat) : Option (Nat × Registration) :=
  db.registrations.find? (fun r => r.2.deviceId == did && r.2.passId == pid)

/-- Lookup `ctx.db.get(id)` on the passes table. -/
def getPassById (db : DB) (pid : Nat) : Option Pass :=
  (db.passes.find? (fun r => r.1 == pid)).map (·.2)

/-- Lookup `ctx.db.get(id)` on the devices table. -/
def getDeviceById (db : DB) (did : Nat) : Option Device :=
  (db.devices.find? (fun r => r.1 == did)).map (·.2)

/-- Document patch `ctx.db.patch(id, ...)`: rewrite the row stored under the
given id, leaving every other row unchanged. -/
def patchRow {α : Type} (l : List (Nat × α)) (id : Nat) (f : α → α) : List (Nat × α) :=
  l.map (fun r => if r.1 = id then (r.1, f r.2) else r)

/-- Arguments of the registerDevice mutation. -/
structure RegisterArgs where
  deviceLibraryIdentifier : String
  pushToken : String
  passTypeIdentifier : String
  serialNumber : String
  authenticationToken : String
deriving DecidableEq, Repr

/-- Stage one of registerDevice (source lines 22-41, "Find or create
device"): patch the push token when it changed, insert the device when it is
missing; also returns the resolved device id. -/
def upsertDevice (db : DB) (a : RegisterArgs) : DB × Nat :=
  match findDevice? db a.deviceLibraryIdentifier with
  | some (did, d) =>
    if d.pushToken ≠ a.pushToken then
      ({ db with devices := patchRow db.devices did (fun x => { x with pushToken := a.pushToken }) }, did)
    else (db, did)
  | none =>
    ({ db with
        devices := db.devices ++ [(db.nextId, ⟨a.deviceLibraryIdentifier, a.pushToken⟩)],
        nextId := db.nextId + 1 }, db.nextId)

/-- Stage two of registerDevice (source lines 43-67, "Find or create pass"):
patch the authentication token when it changed (source lines 56-59), insert
the pass with lastUpdated = Date.now() when it is missing; also returns the
resolved pass id. -/
def upsertPass (db : DB) (a : RegisterArgs) (now : Nat) : DB × Nat :=
  match findPass? db a.passTypeIdentifier a.serialNumber with
  | some (pid, p) =>
    if p.authenticationToken ≠ a.authenticationToken then
      ({ db with passes := patchRow db.passes pid (fun x => { x with authenticationToken := a.authenticationToken }) }, pid)
    else (db, pid)
  | none =>
    ({ db with
        passes := db.passes ++ [(db.nextId, ⟨a.passTypeIdentifier, a.serialNumber, a.authenticationToken, now⟩)],
        nextId := db.nextId + 1 }, db.nextId)

/-- Stage three of registerDevice (source lines 69-87): insert the
registration unless one already exists; the boolean is the returned isNew. -/
def upsertRegistration (db : DB) (did pid : Nat) : DB × Bool :=
  match findReg? db did pid with
  | some _ => (db, false)
  | none =>
    ({ db with
        registrations := db.registrations ++ [(db.nextId, ⟨did, pid⟩)],
        nextId := db.nextId + 1 }, true)

/-- The registerDevice mutation (src/convex/registrations.js lines 12-88):
the three stages run in sequence; the result is the new store and the isNew
flag of the registration. `now` stands for Date.now(). -/
def registerDevice (db : DB) (a : RegisterArgs) (now : Nat) : DB × Bool :=
  let s1 := upsertDevice db a
  let s2 := upsertPass s1.1 a now
  upsertRegistration s2.1 s1.2 s2.2

/-- The unregisterDevice mutation (src/convex/registrations.js lines 94-144):
return deleted=false when the device, the pass, or the registration is
missing; otherwise delete the registration and garbage-collect the device
when it has no remaining registrations. -/
def unregisterDevice (db : DB) (lib ptype serial : String) : DB × Bool :=
  match findDevice? db lib with
  | none => (db, false)
  | some (did, _) =>
    match findPass? db ptype serial with
    | none => (db, false)
    | some (pid, _) =>
      match findReg? db did pid with
      | none => (db, false)
      | some (rid, _) =>
        let db1 := { db with registrations := db.registrations.filter (fun r => r.1 ≠ rid) }
        match db1.registrations.find? (fun r => r.2.deviceId == did) with
        | none => ({ db1 with devices := db1.devices.filter (fun r => r.1 ≠ did) }, true)
        | some _ => (db1, true)

/-- Result shape of the getPassesForDevice query. -/
structure PassesResult where
  serialNumbers : List String
  lastUpdated : Option String
deriving DecidableEq, Repr

/-- Math.max over a JavaScript array of numbers (here all nonnegative). -/
def jsMathMax (l : List Nat) : Nat :=
  l.foldr max 0

/-- The registrations of one device, the local `registrations` array of the
getPassesForDevice handler (source lines 169-172). -/
def deviceRegs (db : DB) (did : Nat) : List (Nat × Registration) :=
  db.registrations.filter (fun r => r.2.deviceId == did)

/-- The local `filteredPasses` array of the getPassesForDevice handler
(source lines 178-190): fetch each registered pass and keep the non-null
ones of the requested type with lastUpdated strictly above the threshold. -/
def pollFiltered (db : DB) (did : Nat) (ptype : String) (since : Int) : List Pass :=
  ((deviceRegs db did).map (fun r => getPassById db r.2.passId)).filterMap (fun o =>
    o.bind (fun p =>
      if p.passTypeIdentifier == ptype && decide ((p.lastUpdated : Int) > since) then
        some p
      else none))

/-- The getPassesForDevice query (src/convex/registrations.js lines 153-203):
resolve the device, collect its registrations, fetch each registered pass,
filter to non-null passes of the requested type updated strictly after the
parsed sinceTimestamp, and return their serials with the stringified maximal
lastUpdated; every empty outcome is the same ([], null) result. -/
def getPassesForDevice (db : DB) (lib ptype : String) (passesUpdatedSince : Option String) :
    PassesResult :=
  match findDevice? db lib with
  | none => ⟨[], none⟩
  | some (did, _) =>
    if (deviceRegs db did).isEmpty then ⟨[], none⟩
    else
      let filtered := pollFiltered db did ptype (sinceTimestampOf passesUpdatedSince)
      if filtered.isEmpty then ⟨[], none⟩
      else
        ⟨filtered.map (·.serialNumber),
         some (toString (jsMathMax (filtered.map (·.lastUpdated))))⟩

/-- The touchPass mutation (src/convex/registrations.js lines 209-228): set
lastUpdated to Date.now() when the pass exists, otherwise do nothing. -/
def touchPass (db : DB) (ptype serial : String) (now : Nat) : DB :=
  match findPass? db ptype serial with
  | some (pid, _) =>
    { db with passes := patchRow db.passes pid (fun p => { p with lastUpdated := now }) }
  | none => db

/-- The touchAllPasses mutation (src/convex/registrations.js lines 293-303):
set every lastUpdated to the same Date.now() and return the pass count. -/
def touchAllPasses (db : DB) (now : Nat) : DB × Nat :=
  ({ db with passes := db.passes.map (fun r => (r.1, { r.2 with lastUpdated := now })) },
   db.passes.length)

/-- The getPassAuthToken query (src/convex/registrations.js lines 234-252):
null when the pass is missing, the stored token otherwise. -/
def getPassAuthToken (db : DB) (ptype serial : String) : Option String :=
  (findPass? db ptype serial).map (·.2.authenticationToken)

/-- A push target returned by getAllPushTokens. -/
structure PushTarget where
  pushToken : String
  passTypeIdentifier : String
deriving DecidableEq, Repr

/-- JavaScript `[...new Set(list)]`: keep the first occurrence of each
element, preserving insertion order. -/
def jsSetDedup (l : List Nat) : List Nat :=
  l.foldl (fun acc x => if x ∈ acc then acc else acc ++ [x]) []

/-- The getAllPushTokens query (src/convex/registrations.js lines 260-287):
deduplicate device ids across all registrations, take the pass type of the
first non-null pass among the deduplicated pass ids as the single topic, and
return one entry per (non-null) device, each carrying that one topic. -/
def getAllPushTokens (db : DB) : List PushTarget :=
  if db.registrations.isEmpty then []
  else
    let deviceIds := jsSetDedup (db.registrations.map (·.2.deviceId))
    let devices := deviceIds.map (getDeviceById db)
    let passIds := jsSetDedup (db.registrations.map (·.2.passId))
    let passes := passIds.map (getPassById db)
    let passTypeId :=
      match passes.find? (fun o => o.isSome) with
      | some (some p) => p.passTypeIdentifier
      | _ => ""
    (devices.filterMap id).map (fun d => ⟨d.pushToken, passTypeId⟩)

/-- JavaScript `s.startsWith(pre)`, computed on the character lists. -/
def jsStartsWith (s pre : String) : Bool :=
  s.toList.take pre.toList.length == pre.toList

/-- JavaScript `s.slice(n)`: the string without its first n characters. -/
def jsSliceFrom (s : String) (n : Nat) : String :=
  String.mk (s.toList.drop n)

/-- The store-backed request authentication from src/src/worker.js: check the
ApplePass scheme, extract the presented token, look up the stored token via
getPassAuthToken and compare; a missing header, a missing pass, and a token
mismatch all evaluate to the same false (the handler answers the same 401
response whenever this is false). -/
def verifyAppleAuth (db : DB) (ptype serial : String) (authHeader : Option String) : Bool :=
  match authHeader with
  | none => false
  | some h =>
    if jsStartsWith h "ApplePass " then
      let provided := jsSliceFrom h 10
      match getPassAuthToken db ptype serial with
      | none => false
      | some expected => provided == expected
    else false

/-- APNs signing configuration read from the environment by
sendPushNotifications; each field is the raw environment variable, `none`
when unset. -/
structure ApnsConfig where
  keyId : Option String
  teamId : Option String
  privateKey : Option String
deriving DecidableEq, Repr

/-- JavaScript truthiness of an optional environment string: undefined and
the empty string are falsy. -/
def jsTruthyStr : Option String → Bool
  | none => false
  | some s => s ≠ ""

/-- The sendPushNotifications tick (src/convex/pushNotifications.js lines
56-177) restricted to its store effects and dispatched sends: when any
signing variable is missing the tick returns before reading the store or
mutating anything; when no targets are registered it also stops; otherwise
it bumps every lastUpdated via touchAllPasses and issues one send per push
target. The second component lists the (deliveryAddress, topic) sends. -/
def sendPushNotifications (cfg : ApnsConfig) (db : DB) (now : Nat) : DB × List PushTarget :=
  if !jsTruthyStr cfg.keyId || !jsTruthyStr cfg.teamId || !jsTruthyStr cfg.privateKey then
    (db, [])
  else
    let tokens := getAllPushTokens db
    if tokens.isEmpty then (db, [])
    else
      ((touchAllPasses db now).1, tokens)

/-- A row of the SQLite passes table from src/src/db.js. -/
structure SPass where
  pass_type_id : String
  serial_number : String
  authentication_token : String
  last_updated : Nat
deriving DecidableEq, Repr

/-- The SQLite store of src/src/db.js restricted to the passes table, with
the autoincrement counter. -/
structure SDB where
  passes : List (Nat × SPass)
  nextId : Nat
deriving DecidableEq, Repr

/-- The findOrCreatePass function (src/src/db.js lines 130-149): when a row
with the given (pass_type_id, serial_number) exists it is returned unchanged
with isNew=false and the table is not modified; otherwise a fresh row is
inserted with the supplied token and last_updated defaulted to now. -/
def findOrCreatePass (db : SDB) (ptype serial token : String) (now : Nat) :
    SDB × SPass × Bool :=
  match db.passes.find? (fun r => r.2.pass_type_id == ptype && r.2.serial_number == serial) with
  | some (_, p) => (db, p, false)
  | none =>
    let row : SPass := ⟨ptype, serial, token, now⟩
    ({ passes := db.passes ++ [(db.nextId, row)], nextId := db.nextId + 1 }, row, true)

/-- One timestamp-touching operation: the touchPass mutation on one card or
the touchAllPasses sweep, each carrying its Date.now() reading. -/
inductive TouchOp where
  | touch (ptype serial : String) (now : Nat)
  | touchAll (now : Nat)
deriving DecidableEq, Repr

/-- The clock reading an operation writes. -/
def TouchOp.now : TouchOp → Nat
  | .touch _ _ n => n
  | .touchAll n => n

/-- Execute one timestamp-touching operation on the store. -/
def execTouch (db : DB) : TouchOp → DB
  | .touch t s n => touchPass db t s n
  | .touchAll n => (touchAllPasses db n).1

/-- The lastUpdated value currently observable for the card at the given
natural key, if the card exists. -/
def lastUpdatedOf (db : DB) (ptype serial : String) : Option Nat :=
  (findPass? db ptype serial).map (·.2.lastUpdated)

/-- The card timestamps observed after each operation of a sequence. -/
def obsTimestamps (db : DB) (ptype serial : String) : List TouchOp → List (Option Nat)
  | [] => []
  | op :: rest =>
    let db1 := execTouch db op
    lastUpdatedOf db1 ptype serial :: obsTimestamps db1 ptype serial rest

/-- Whether the (device, card) pair resolved by the natural keys of the
arguments already has a subscription row. -/
def subscribed (db : DB) (a : RegisterArgs) : Bool :=
  match findDevice? db a.deviceLibraryIdentifier, findPass? db a.passTypeIdentifier a.serialNumber with
  | some (did, _), some (pid, _) => (findReg? db did pid).isSome
  | _, _ => false

/-- All subscription rows for the (device, card) pair resolved by the natural
keys of the arguments. -/
def subRows (db : DB) (a : RegisterArgs) : List (Nat × Registration) :=
  match findDevice? db a.deviceLibraryIdentifier, findPass? db a.passTypeIdentifier a.serialNumber with
  | some (did, _), some (pid, _) =>
    db.registrations.filter (fun r => r.2.deviceId == did && r.2.passId == pid)
  | _, _ => []

/-- A pass matches a poll for device id did, pass type ptype and threshold
since when some registration of the device points at it, its type is the
requested one and its lastUpdated is strictly above the threshold. -/
def pollMatch (db : DB) (did : Nat) (ptype : String) (since : Int) (p : Pass) : Prop :=
  ∃ r ∈ db.registrations, r.2.deviceId = did ∧ getPassById db r.2.passId = some p ∧
    p.passTypeIdentifier = ptype ∧ (p.lastUpdated : Int) > since

/-- The store ids referenced by registration rows stay below the fresh id
counter; Convex guarantees this because document ids are handed out by the
store itself. -/
def regIdsBounded (db : DB) : Prop :=
  ∀ r ∈ db.registrations, r.2.deviceId < db.nextId ∧ r.2.passId < db.nextId

/-- A concrete store: device dev1 subscribed to passes C1 (lastUpdated 10)
and C2 (lastUpdated 20) of type t, matching scenario P5 of the spec. -/
def exampleStore : DB :=
  { devices := [(0, ⟨"dev1", "ptok1"⟩)],
    passes := [(1, ⟨"t", "C1", "tok", 10⟩), (2, ⟨"t", "C2", "tok", 20⟩)],
    registrations := [(3, ⟨0, 1⟩), (4, ⟨0, 2⟩)],
    nextId := 5 }

/-- The empty store. -/
def emptyStore : DB :=
  { devices := [], passes := [], registrations := [], nextId := 0 }

/-- A store holding one pass (type t, serial s) with token T and no device. -/
def singlePassStore : DB :=
  { devices := [], passes := [(0, ⟨"t", "s", "T", 1⟩)], registrations := [], nextId := 1 }

/-- A store where device dev1 subscribes to one pass whose lastUpdated (10)
is below the poll threshold used in the C2 counterexample. -/
def staleSubStore : DB :=
  { devices := [(0, ⟨"dev1", "ptok1"⟩)],
    passes := [(1, ⟨"t", "C1", "tok", 10⟩)],
    registrations := [(2, ⟨0, 1⟩)],
    nextId := 3 }

/-- A store where device dev1 exists but has zero subscriptions. -/
def noSubStore : DB :=
  { devices := [(0, ⟨"dev1", "ptok1"⟩)],
    passes := [(1, ⟨"t", "C1", "tok", 10⟩)],
    registrations := [],
    nextId := 2 }

/-- A store with two card types: device devA subscribes to passes of type
typeA and typeB, device devB subscribes only to the pass of type typeB. -/
def multiTypeStore : DB :=
  { devices := [(0, ⟨"devA", "ptokA"⟩), (1, ⟨"devB", "ptokB"⟩)],
    passes := [(2, ⟨"typeA", "s1", "tok1", 5⟩), (3, ⟨"typeB", "s2", "tok2", 5⟩)],
    registrations := [(4, ⟨0, 2⟩), (5, ⟨0, 3⟩), (6, ⟨1, 3⟩)],
    nextId := 7 }

/-- The register arguments used by the C4 witness. -/
def exampleArgs : RegisterArgs :=
  ⟨"dev1", "ptok1", "t", "s", "tok"⟩

/-- A SQLite store holding one pass row (type t, serial s) with token T. -/
def sqliteStore : SDB := ⟨[(0, ⟨"t", "s", "T", 1⟩)], 1⟩

theorem find?_patchRow {α : Type} (l : List (Nat × α)) (id : Nat) (f : α → α)
    (q : Nat × α → Bool) (hq : ∀ i a, q (i, f a) = q (i, a)) :
    (patchRow l id f).find? q =
      (l.find? q).map (fun r => if r.1 = id then (r.1, f r.2) else r) := by
  have hfun : (fun r : Nat × α => q (if r.1 = id then (r.1, f r.2) else r)) = q := by
    funext r
    rcases r with ⟨i, a⟩
    by_cases h : i = id <;> simp [h, hq]
  rw [patchRow, List.find?_map]
  congr 1
  simp only [Function.comp_def]
  rw [hfun]

theorem le_jsMathMax (l : List Nat) (x : Nat) (hx : x ∈ l) : x ≤ jsMathMax l := by
  induction l with
  | nil => cases hx
  | cons a t ih =>
    rcases List.mem_cons.mp hx with rfl | h
    · exact le_max_left _ _ |>.trans_eq rfl
    · exact (ih h).trans (le_max_right _ _)

theorem jsMathMax_mem (l : List Nat) (h : l ≠ []) : jsMathMax l ∈ l := by
  induction l with
  | nil => exact absurd rfl h
  | cons a t ih =>
    cases t with
    | nil => simp [jsMathMax]
    | cons b u =>
      rcases max_choice a (jsMathMax (b :: u)) with hm | hm
    
      · simp only [jsMathMax, List.foldr] at hm ⊢
        rw [hm]
        exact List.mem_cons_self _ _
      · simp only [jsMathMax, List.foldr] at hm ⊢
        rw [hm]
        exact List.mem_cons_of_mem _ (ih (by simp))

theorem findDevice?_ext (db db' : DB) (lib : String) (h : db.devices = db'.devices) :
    findDevice? db lib = findDevice? db' lib := by
  simp [findDevice?, h]

theorem findPass?_ext (db db' : DB) (ptype serial : String) (h : db.passes = db'.passes) :
    findPass? db ptype serial = findPass? db' ptype serial := by
  simp [findPass?, h]

theorem findReg?_ext (db db' : DB) (did pid : Nat) (h : db.registrations = db'.registrations) :
    findReg? db did pid = findReg? db' did pid := by
  simp [findReg?, h]

theorem upsertDevice_passes (db : DB) (a : RegisterArgs) :
    (upsertDevice db a).1.passes = db.passes := by
  rw [upsertDevice]
  cases h : findDevice? db a.deviceLibraryIdentifier with
  | none => rfl
  | some r =>
    rcases r with ⟨did, d⟩
    by_cases hp : d.pushToken = a.pushToken <;> simp [hp]

theorem upsertDevice_registrations (db : DB) (a : RegisterArgs) :
    (upsertDevice db a).1.registrations = db.registrations := by
  rw [upsertDevice]
  cases h : findDevice? db a.deviceLibraryIdentifier with
  | none => rfl
  | some r =>
    rcases r with ⟨did, d⟩
    by_cases hp : d.pushToken = a.pushToken <;> simp [hp]

theorem upsertDevice_nextId (db : DB) (a : RegisterArgs) :
    db.nextId ≤ (upsertDevice db a).1.nextId := by
  rw [upsertDevice]
  cases h : findDevice? db a.deviceLibraryIdentifier with
  | none => simp
  | some r =>
    rcases r with ⟨did, d⟩
    by_cases hp : d.pushToken = a.pushToken <;> simp [hp]

theorem upsertPass_devices (db : DB) (a : RegisterArgs) (now : Nat) :
    (upsertPass db a now).1.devices = db.devices := by
  rw [upsertPass]
  cases h : findPass? db a.passTypeIdentifier a.serialNumber with
  | none => rfl
  | some r =>
    rcases r with ⟨pid, p⟩
    by_cases hp : p.authenticationToken = a.authenticationToken <;> simp [hp]

theorem upsertPass_registrations (db : DB) (a : RegisterArgs) (now : Nat) :
    (upsertPass db a now).1.registrations = db.registrations := by
  rw [upsertPass]
  cases h : findPass? db a.passTypeIdentifier a.serialNumber with
  | none => rfl
  | some r =>
    rcases r with ⟨pid, p⟩
    by_cases hp : p.authenticationToken = a.authenticationToken <;> simp [hp]

theorem upsertPass_nextId (db : DB) (a : RegisterArgs) (now : Nat) :
    db.nextId ≤ (upsertPass db a now).1.nextId := by
  rw [upsertPass]
  cases h : findPass? db a.passTypeIdentifier a.serialNumber with
  | none => simp
  | some r =>
    rcases r with ⟨pid, p⟩
    by_cases hp : p.authenticationToken = a.authenticationToken <;> simp [hp]

theorem findDevice?_upsertDevice (db : DB) (a : RegisterArgs) :
    ∃ d : Device, findDevice? (upsertDevice db a).1 a.deviceLibraryIdentifier =
        some ((upsertDevice db a).2, d) ∧ d.pushToken = a.pushToken := by
  rw [upsertDevice]
  cases h : findDevice? db a.deviceLibraryIdentifier with
  | none =>
    refine ⟨⟨a.deviceLibraryIdentifier, a.pushToken⟩, ?_, rfl⟩
    simp only [findDevice?, List.find?_append]
    rw [findDevice?] at h
    rw [h]
    simp
  | some r =>
    rcases r with ⟨did, d⟩
    by_cases hp : d.pushToken = a.pushToken
    · refine ⟨d, ?_, hp⟩
      simp only [hp, ne_eq, not_true_eq_false, if_neg, ite_false]
      simpa using h
    · refine ⟨{ d with pushToken := a.pushToken }, ?_, rfl⟩
      simp only [ne_eq, hp, not_false_eq_true, if_pos, ite_true]
      simp only [findDevice?]
      rw [find?_patchRow db.devices did (fun x => { x with pushToken := a.pushToken })
        (fun r => r.2.deviceLibraryIdentifier == a.deviceLibraryIdentifier) (fun i x => rfl)]
      rw [findDevice?] at h
      rw [h]
      simp

theorem findPass?_upsertPass (db : DB) (a : RegisterArgs) (now : Nat) :
    ∃ p : Pass, findPass? (upsertPass db a now).1 a.passTypeIdentifier a.serialNumber =
        some ((upsertPass db a now).2, p) ∧ p.authenticationToken = a.authenticationToken := by
  rw [upsertPass]
  cases h : findPass? db a.passTypeIdentifier a.serialNumber with
  | none =>
    refine ⟨⟨a.passTypeIdentifier, a.serialNumber, a.authenticationToken, now⟩, ?_, rfl⟩
    simp only [findPass?, List.find?_append]
    rw [findPass?] at h
    rw [h]
    simp
  | some r =>
    rcases r with ⟨pid, p⟩
    by_cases hp : p.authenticationToken = a.authenticationToken
    · refine ⟨p, ?_, hp⟩
      simp only [hp, ne_eq, not_true_eq_false, if_neg, ite_false]
      simpa using h
    · refine ⟨{ p with authenticationToken := a.authenticationToken }, ?_, rfl⟩
      simp only [ne_eq, hp, not_false_eq_true, if_pos, ite_true]
      simp only [findPass?]
      rw [find?_patchRow db.passes pid (fun x => { x with authenticationToken := a.authenticationToken })
        (fun r => r.2.passTypeIdentifier == a.passTypeIdentifier && r.2.serialNumber == a.serialNumber)
        (fun i x => rfl)]
      rw [findPass?] at h
      rw [h]
      simp

theorem upsertDevice_id (db : DB) (a : RegisterArgs) :
    (∃ d, findDevice? db a.deviceLibraryIdentifier = some ((upsertDevice db a).2, d)) ∨
      db.nextId ≤ (upsertDevice db a).2 := by
  rw [upsertDevice]
  cases h : findDevice? db a.deviceLibraryIdentifier with
  | none => right; simp
  | some r =>
    rcases r with ⟨did, d⟩
    left
    by_cases hp : d.pushToken = a.pushToken <;> exact ⟨d, by simp [hp, h]⟩

theorem upsertPass_id (db : DB) (a : RegisterArgs) (now : Nat) :
    (∃ p, findPass? db a.passTypeIdentifier a.serialNumber = some ((upsertPass db a now).2, p)) ∨
      db.nextId ≤ (upsertPass db a now).2 := by
  rw [upsertPass]
  cases h : findPass? db a.passTypeIdentifier a.serialNumber with
  | none => right; simp
  | some r =>
    rcases r with ⟨pid, p⟩
    left
    by_cases hp : p.authenticationToken = a.authenticationToken <;> exact ⟨p, by simp [hp, h]⟩

theorem upsertRegistration_devices (db : DB) (did pid : Nat) :
    (upsertRegistration db did pid).1.devices = db.devices := by
  rw [upsertRegistration]
  cases h : findReg? db did pid <;> rfl

theorem upsertRegistration_passes (db : DB) (did pid : Nat) :
    (upsertRegistration db did pid).1.passes = db.passes := by
  rw [upsertRegistration]
  cases h : findReg? db did pid <;> rfl

theorem upsertRegistration_of_none (db : DB) (did pid : Nat) (h : findReg? db did pid = none) :
    upsertRegistration db did pid =
      ({ db with
          registrations := db.registrations ++ [(db.nextId, ⟨did, pid⟩)],
          nextId := db.nextId + 1 }, true) := by
  rw [upsertRegistration, h]

theorem upsertRegistration_of_some (db : DB) (did pid : Nat) (r : Nat × Registration)
    (h : findReg? db did pid = some r) :
    upsertRegistration db did pid = (db, false) := by
  rw [upsertRegistration, h]

theorem registerDevice_creates (db : DB) (a : RegisterArgs) (n : Nat)
    (Hreg : regIdsBounded db) (Hsub : subscribed db a = false) :
    ∃ (did pid rid : Nat) (d : Device) (p : Pass),
      (registerDevice db a n).2 = true ∧
      findDevice? (registerDevice db a n).1 a.deviceLibraryIdentifier = some (did, d) ∧
      d.pushToken = a.pushToken ∧
      findPass? (registerDevice db a n).1 a.passTypeIdentifier a.serialNumber = some (pid, p) ∧
      p.authenticationToken = a.authenticationToken ∧
      (registerDevice db a n).1.registrations = db.registrations ++ [(rid, ⟨did, pid⟩)] ∧
      db.registrations.filter (fun r => r.2.deviceId == (did : Nat) && r.2.passId == pid) = [] := by
  obtain ⟨d, hd, hdtok⟩ := findDevice?_upsertDevice db a
  obtain ⟨p, hp, hptok⟩ := findPass?_upsertPass (upsertDevice db a).1 a n
  have hpasses1 : (upsertDevice db a).1.passes = db.passes := upsertDevice_passes db a
  have hregs2 : (upsertPass (upsertDevice db a).1 a n).1.registrations = db.registrations := by
    rw [upsertPass_registrations, upsertDevice_registrations]
  have hnone : ∀ r ∈ db.registrations,
      (r.2.deviceId == (upsertDevice db a).2 && r.2.passId == (upsertPass (upsertDevice db a).1 a n).2) = false := by
    intro r hr
    rcases upsertDevice_id db a with ⟨d₀, hd₀⟩ | hdid_ge
    · rcases upsertPass_id (upsertDevice db a).1 a n with ⟨p₀, hp₀⟩ | hpid_ge
      · have hp₀' : findPass? db a.passTypeIdentifier a.serialNumber =
            some ((upsertPass (upsertDevice db a).1 a n).2, p₀) := by
          rw [findPass?_ext db (upsertDevice db a).1 a.passTypeIdentifier a.serialNumber hpasses1.symm]
          exact hp₀
        have hs := Hsub
        rw [subscribed, hd₀, hp₀'] at hs
        have hfr : findReg? db (upsertDevice db a).2 (upsertPass (upsertDevice db a).1 a n).2 = none := by
          cases hfr' : findReg? db (upsertDevice db a).2 (upsertPass (upsertDevice db a).1 a n).2 with
          | none => rfl
          | some x => simp [hfr'] at hs
        rw [findReg?, List.find?_eq_none] at hfr
        exact Bool.not_eq_true _ |>.mp (hfr r hr)
      · have hle : db.nextId ≤ (upsertPass (upsertDevice db a).1 a n).2 :=
          le_trans (upsertDevice_nextId db a) hpid_ge
        have h2 := (Hreg r hr).2
        have hne : r.2.passId ≠ (upsertPass (upsertDevice db a).1 a n).2 := by omega
        simp [hne]
    · have h1 := (Hreg r hr).1
      have hne : r.2.deviceId ≠ (upsertDevice db a).2 := by omega
      simp [hne]
  have hfrnone : findReg? (upsertPass (upsertDevice db a).1 a n).1 (upsertDevice db a).2
      (upsertPass (upsertDevice db a).1 a n).2 = none := by
    rw [findReg?, hregs2, List.find?_eq_none]
    intro r hr
    simp only [hnone r hr]
    exact Bool.false_ne_true
  have hrd : registerDevice db a n = upsertRegistration (upsertPass (upsertDevice db a).1 a n).1
      (upsertDevice db a).2 (upsertPass (upsertDevice db a).1 a n).2 := rfl
  rw [hrd, upsertRegistration_of_none _ _ _ hfrnone]
  refine ⟨(upsertDevice db a).2, (upsertPass (upsertDevice db a).1 a n).2,
    (upsertPass (upsertDevice db a).1 a n).1.nextId, d, p, rfl, ?_, hdtok, ?_, hptok, ?_, ?_⟩
  · exact (findDevice?_ext _ (upsertDevice db a).1 _ (upsertPass_devices _ _ _)).trans hd
  · exact (findPass?_ext _ (upsertPass (upsertDevice db a).1 a n).1 _ _ rfl).trans hp
  · rw [hregs2]
  · apply List.filter_eq_nil_iff.mpr
    intro r hr
    simp only [hnone r hr]
    exact Bool.false_ne_true

/-- C4 (idempotent subscribe): for a store with store-issued registration ids
and no existing subscription for the (device, card) pair of the arguments,
calling registerDevice twice with the same arguments returns isNew=true then
isNew=false, the second call leaves the store untouched, and exactly one
subscription row for the pair exists afterward. -/
theorem c4_idempotent_subscribe (db : DB) (a : RegisterArgs) (n1 n2 : Nat)
    (Hreg : regIdsBounded db) (Hsub : subscribed db a = false) :
    (registerDevice db a n1).2 = true ∧
    (registerDevice (registerDevice db a n1).1 a n2).2 = false ∧
    (registerDevice (registerDevice db a n1).1 a n2).1 = (registerDevice db a n1).1 ∧
    (subRows (registerDevice (registerDevice db a n1).1 a n2).1 a).length = 1 := by
  obtain ⟨did, pid, rid, d, p, hnew, hd, hdtok, hp, hptok, hregs, hfilter⟩ :=
    registerDevice_creates db a n1 Hreg Hsub
  have hu1 : upsertDevice (registerDevice db a n1).1 a = ((registerDevice db a n1).1, did) := by
    rw [upsertDevice, hd]
    simp [hdtok]
  have hu2 : upsertPass (registerDevice db a n1).1 a n2 = ((registerDevice db a n1).1, pid) := by
    rw [upsertPass, hp]
    simp [hptok]
  have hexists : (findReg? (registerDevice db a n1).1 did pid).isSome := by
    rw [findReg?, hregs, List.find?_append]
    cases h : List.find? (fun r => r.2.deviceId == did && r.2.passId == pid) db.registrations <;>
      simp
  obtain ⟨y, hy⟩ := Option.isSome_iff_exists.mp hexists
  have hsecond : registerDevice (registerDevice db a n1).1 a n2 = ((registerDevice db a n1).1, false) := by
    have hunf : registerDevice (registerDevice db a n1).1 a n2 =
        upsertRegistration (upsertPass (upsertDevice (registerDevice db a n1).1 a).1 a n2).1
          (upsertDevice (registerDevice db a n1).1 a).2
          (upsertPass (upsertDevice (registerDevice db a n1).1 a).1 a n2).2 := rfl
    rw [hunf]
    simp only [hu1, hu2]
    exact upsertRegistration_of_some _ _ _ y hy
  have hsub3 : subRows (registerDevice (registerDevice db a n1).1 a n2).1 a = [(rid, ⟨did, pid⟩)] := by
    rw [hsecond]
    simp only [subRows, hd, hp]
    rw [hregs, List.filter_append, hfilter]
    simp
  refine ⟨hnew, ?_, ?_, ?_⟩
  · rw [hsecond]
  · rw [hsecond]
  · rw [hsub3]
    rfl

theorem bind_guard_eq_some {α : Type} (o : Option α) (c : α → Bool) (x : α) :
    o.bind (fun y => if c y then some y else none) = some x ↔ o = some x ∧ c x = true := by
  cases o with
  | none => simp
  | some y =>
    simp only [Option.some_bind]
    by_cases hc : c y = true
    · rw [if_pos hc]
      simp only [Option.some.injEq]
      constructor
      · rintro rfl
        exact ⟨rfl, hc⟩
      · rintro ⟨rfl, _⟩
        rfl
    · rw [if_neg hc]
      constructor
      · intro h
        simp at h
      · rintro ⟨h, hcx⟩
        injection h with h2
        rw [h2] at hc
        exact absurd hcx hc

theorem mem_pollFiltered (db : DB) (did : Nat) (ptype : String) (since : Int) (p : Pass) :
    p ∈ pollFiltered db did ptype since ↔ pollMatch db did ptype since p := by
  rw [pollFiltered, pollMatch]
  simp only [List.mem_filterMap, List.mem_map, deviceRegs, List.mem_filter]
  constructor
  · rintro ⟨o, ⟨r, ⟨hr, hdid⟩, rfl⟩, hbind⟩
    rw [bind_guard_eq_some] at hbind
    obtain ⟨hget, hc⟩ := hbind
    simp only [Bool.and_eq_true, beq_iff_eq, decide_eq_true_eq] at hc hdid
    exact ⟨r, hr, hdid, hget, hc.1, hc.2⟩
  · rintro ⟨r, hr, hdid, hget, htype, hlt⟩
    refine ⟨getPassById db r.2.passId, ⟨r, ⟨hr, by simp [hdid]⟩, rfl⟩, ?_⟩
    rw [bind_guard_eq_some]
    exact ⟨hget, by simp [htype, hlt]⟩

theorem getPassesForDevice_since_congr (db : DB) (lib ptype : String) (x y : Option String)
    (h : sinceTimestampOf x = sinceTimestampOf y) :
    getPassesForDevice db lib ptype x = getPassesForDevice db lib ptype y := by
  simp only [getPassesForDevice, h]

/-- C10 (invalid passesUpdatedSince): a passesUpdatedSince string that
does not parse (NaN), is empty, or is "0" makes getPassesForDevice behave
exactly as if the parameter were absent (threshold 0). -/
theorem c10_invalid_since_treated_as_absent :
    ∀ (db : DB) (lib ptype s : String),
      jsParseInt s = none ∨ s = "" ∨ s = "0" →
      getPassesForDevice db lib ptype (some s) = getPassesForDevice db lib ptype none := by
  intro db lib ptype s h
  apply getPassesForDevice_since_congr
  rcases h with h | h | h
  · by_cases hs : s = "" <;> simp [sinceTimestampOf, hs, h]
  · subst h; decide
  · subst h; decide

/-- C9 (missing signing material): when the key id, team id, or private
key environment value is absent or empty, the push dispatch tick returns
with the store unchanged and no sends issued; the cron schedule retries on
the next tick. -/
theorem c9_missing_signing_material_skips_tick :
    ∀ (cfg : ApnsConfig) (db : DB) (now : Nat),
      jsTruthyStr cfg.keyId = false ∨ jsTruthyStr cfg.teamId = false ∨
        jsTruthyStr cfg.privateKey = false →
      sendPushNotifications cfg db now = (db, []) := by
  intro cfg db now h
  have hc : (!jsTruthyStr cfg.keyId || !jsTruthyStr cfg.teamId || !jsTruthyStr cfg.privateKey) = true := by
    rcases h with h | h | h <;> simp [h]
  simp [sendPushNotifications, hc]

/-- C8 (auth failure uniformity): verifyAppleAuth evaluates to the same
false both when the pass is absent from the store and when the pass exists
but the presented token differs from the stored one; no distinguishing
detail is produced (the handler maps every false to the same 401). -/
theorem c8_auth_failure_uniformity :
    ∀ (db : DB) (ptype serial : String),
      (findPass? db ptype serial = none →
        ∀ hdr : Option String, verifyAppleAuth db ptype serial hdr = false) ∧
      (∀ (pid : Nat) (p : Pass), findPass? db ptype serial = some (pid, p) →
        ∀ h : String, jsSliceFrom h 10 ≠ p.authenticationToken →
          verifyAppleAuth db ptype serial (some h) = false) := by
  intro db ptype serial
  constructor
  · intro hnone hdr
    cases hdr with
    | none => rfl
    | some h =>
      rw [verifyAppleAuth]
      by_cases hs : jsStartsWith h "ApplePass " <;> simp [hs, getPassAuthToken, hnone]
  · intro pid p hsome h hne
    rw [verifyAppleAuth]
    by_cases hs : jsStartsWith h "ApplePass "
    · simp [hs, getPassAuthToken, hsome, hne]
    · simp [hs]

/-- C2 (amended): getPassesForDevice returns the same ([], null) result
both when the device is missing or has zero subscriptions and when
subscriptions exist but none passes the type-and-threshold filter; the two
empty outcomes are identical (the transport maps both to 204). -/
theorem c2_empty_outcomes_amended :
    ∀ (db : DB) (lib ptype : String) (since : Option String),
      ((findDevice? db lib = none ∨
          ∃ did dv, findDevice? db lib = some (did, dv) ∧ deviceRegs db did = []) →
        getPassesForDevice db lib ptype since = ⟨[], none⟩) ∧
      (∀ (did : Nat) (dv : Device), findDevice? db lib = some (did, dv) →
        (∀ p : Pass, ¬ pollMatch db did ptype (sinceTimestampOf since) p) →
        getPassesForDevice db lib ptype since = ⟨[], none⟩) := by
  intro db lib ptype since
  constructor
  · rintro (h | ⟨did, dv, hdev, hregs⟩)
    · simp [getPassesForDevice, h]
    · simp [getPassesForDevice, hdev, hregs]
  · intro did dv hdev hno
    have hfe : pollFiltered db did ptype (sinceTimestampOf since) = [] := by
      apply List.eq_nil_iff_forall_not_mem.mpr
      intro p hp
      exact hno p ((mem_pollFiltered db did ptype _ p).mp hp)
    by_cases hre : (deviceRegs db did).isEmpty
    · simp [getPassesForDevice, hdev, hre]
    · simp [getPassesForDevice, hdev, hre, hfe]

/-- C6 (poll correctness): when the device resolves, the serials returned
by getPassesForDevice are exactly the serials of passes the device is
registered to of the requested type with lastUpdated strictly above the
parsed threshold, and the returned lastUpdated is the stringified maximum
lastUpdated over the matching passes (null when none match). -/
theorem c6_poll_correctness :
    ∀ (db : DB) (lib ptype : String) (since : Option String) (did : Nat) (dv : Device),
      findDevice? db lib = some (did, dv) →
      ((∀ sn : String, sn ∈ (getPassesForDevice db lib ptype since).serialNumbers ↔
          ∃ p : Pass, pollMatch db did ptype (sinceTimestampOf since) p ∧ p.serialNumber = sn) ∧
       ((getPassesForDevice db lib ptype since).serialNumbers = [] →
         (getPassesForDevice db lib ptype since).lastUpdated = none) ∧
       ((getPassesForDevice db lib ptype since).serialNumbers ≠ [] →
         ∃ M : Nat, (getPassesForDevice db lib ptype since).lastUpdated = some (toString M) ∧
           (∃ p : Pass, pollMatch db did ptype (sinceTimestampOf since) p ∧ p.lastUpdated = M) ∧
           (∀ p : Pass, pollMatch db did ptype (sinceTimestampOf since) p → p.lastUpdated ≤ M))) := by
  intro db lib ptype since did dv hdev
  by_cases hre : (deviceRegs db did).isEmpty
  · have hres : getPassesForDevice db lib ptype since = ⟨[], none⟩ := by
      simp [getPassesForDevice, hdev, hre]
    have hnomatch : ∀ p : Pass, ¬ pollMatch db did ptype (sinceTimestampOf since) p := by
      intro p hp
      rcases hp with ⟨r, hr, hdid, _⟩
      have hmem : r ∈ deviceRegs db did := by
        rw [deviceRegs, List.mem_filter]
        exact ⟨hr, by simp [hdid]⟩
      rw [List.isEmpty_iff] at hre
      rw [hre] at hmem
      cases hmem
    rw [hres]
    refine ⟨?_, fun _ => rfl, fun h => absurd rfl h⟩
    intro sn
    simp only [List.not_mem_nil, false_iff, not_exists]
    rintro p ⟨hp, _⟩
    exact hnomatch p hp
  · by_cases hfe : (pollFiltered db did ptype (sinceTimestampOf since)).isEmpty
    · have hres : getPassesForDevice db lib ptype since = ⟨[], none⟩ := by
        simp [getPassesForDevice, hdev, hre, hfe]
      rw [List.isEmpty_iff] at hfe
      rw [hres]
      refine ⟨?_, fun _ => rfl, fun h => absurd rfl h⟩
      intro sn
      simp only [List.not_mem_nil, false_iff, not_exists]
      rintro p ⟨hp, _⟩
      have hmem := (mem_pollFiltered db did ptype _ p).mpr hp
      rw [hfe] at hmem
      cases hmem
    · have hres : getPassesForDevice db lib ptype since =
          ⟨(pollFiltered db did ptype (sinceTimestampOf since)).map (·.serialNumber),
           some (toString (jsMathMax
             ((pollFiltered db did ptype (sinceTimestampOf since)).map (·.lastUpdated))))⟩ := by
        simp [getPassesForDevice, hdev, hre, hfe]
      have hfene : pollFiltered db did ptype (sinceTimestampOf since) ≠ [] := by
        intro h
        rw [h] at hfe
        exact hfe rfl
      rw [hres]
      refine ⟨?_, ?_, ?_⟩
      · intro sn
        simp only [List.mem_map]
        constructor
        · rintro ⟨p, hp, rfl⟩
          exact ⟨p, (mem_pollFiltered db did ptype _ p).mp hp, rfl⟩
        · rintro ⟨p, hp, rfl⟩
          exact ⟨p, (mem_pollFiltered db did ptype _ p).mpr hp, rfl⟩
      · intro h
        rw [List.map_eq_nil_iff] at h
        exact absurd h hfene
      · intro _
        refine ⟨jsMathMax ((pollFiltered db did ptype (sinceTimestampOf since)).map (·.lastUpdated)),
          rfl, ?_, ?_⟩
        · have hne : (pollFiltered db did ptype (sinceTimestampOf since)).map (·.lastUpdated) ≠ [] := by
            intro h
            rw [List.map_eq_nil_iff] at h
            exact absurd h hfene
          have hmem := jsMathMax_mem _ hne
          rw [List.mem_map] at hmem
          obtain ⟨p, hp, hpl⟩ := hmem
          exact ⟨p, (mem_pollFiltered db did ptype _ p).mp hp, hpl⟩
        · intro p hp
          apply le_jsMathMax
          rw [List.mem_map]
          exact ⟨p, (mem_pollFiltered db did ptype _ p).mpr hp, rfl⟩

/-- C5 (unregister semantics): unregisterDevice returns (db, false) leaving
the store unchanged when the device, pass, or registration is missing; on
success it returns deleted=true, removes exactly the found registration row,
keeps the devices table unchanged if the device still has a registration,
and removes exactly the device row when no registration remains. -/
theorem c5_unregister_garbage_collection :
    ∀ (db : DB) (lib ptype serial : String),
      (findDevice? db lib = none → unregisterDevice db lib ptype serial = (db, false)) ∧
      (findPass? db ptype serial = none → unregisterDevice db lib ptype serial = (db, false)) ∧
      (∀ (did : Nat) (dv : Device) (pid : Nat) (p : Pass),
        findDevice? db lib = some (did, dv) → findPass? db ptype serial = some (pid, p) →
        findReg? db did pid = none → unregisterDevice db lib ptype serial = (db, false)) ∧
      (∀ (did : Nat) (dv : Device) (pid : Nat) (p : Pass) (rid : Nat) (reg : Registration),
        findDevice? db lib = some (did, dv) → findPass? db ptype serial = some (pid, p) →
        findReg? db did pid = some (rid, reg) →
        (unregisterDevice db lib ptype serial).2 = true ∧
        (∀ x : Nat × Registration, x ∈ (unregisterDevice db lib ptype serial).1.registrations ↔
          x ∈ db.registrations ∧ x.1 ≠ rid) ∧
        ((∃ x ∈ (unregisterDevice db lib ptype serial).1.registrations, x.2.deviceId = did) →
          (unregisterDevice db lib ptype serial).1.devices = db.devices) ∧
        ((∀ x ∈ (unregisterDevice db lib ptype serial).1.registrations, x.2.deviceId ≠ did) →
          ∀ y : Nat × Device, y ∈ (unregisterDevice db lib ptype serial).1.devices ↔
            y ∈ db.devices ∧ y.1 ≠ did)) := by
  intro db lib ptype serial
  refine ⟨?_, ?_, ?_, ?_⟩
  · intro h
    simp [unregisterDevice, h]
  · intro h
    cases hdev : findDevice? db lib with
    | none => simp [unregisterDevice, hdev]
    | some r =>
      rcases r with ⟨did, dv⟩
      simp [unregisterDevice, hdev, h]
  · intro did dv pid p hdev hpass hreg
    simp [unregisterDevice, hdev, hpass, hreg]
  · intro did dv pid p rid reg hdev hpass hreg
    cases hrem : (db.registrations.filter (fun r => r.1 ≠ rid)).find? (fun r => r.2.deviceId == did) with
    | none =>
      have hres : unregisterDevice db lib ptype serial =
          ({ devices := db.devices.filter (fun r => r.1 ≠ did),
             passes := db.passes,
             registrations := db.registrations.filter (fun r => r.1 ≠ rid),
             nextId := db.nextId }, true) := by
        simp only [unregisterDevice, hdev, hpass, hreg, hrem]
      rw [hres]
      refine ⟨rfl, ?_, ?_, ?_⟩
      · intro x
        simp [List.mem_filter]
      · rintro ⟨x, hx, hxd⟩
        exfalso
        rw [List.find?_eq_none] at hrem
        exact hrem x hx (by simp [hxd])
      · intro _ y
        simp [List.mem_filter]
    | some w =>
      have hres : unregisterDevice db lib ptype serial =
          ({ devices := db.devices,
             passes := db.passes,
             registrations := db.registrations.filter (fun r => r.1 ≠ rid),
             nextId := db.nextId }, true) := by
        simp only [unregisterDevice, hdev, hpass, hreg, hrem]
      rw [hres]
      refine ⟨rfl, ?_, fun _ => rfl, ?_⟩
      · intro x
        simp [List.mem_filter]
      · intro hall
        exfalso
        have hw := List.find?_some hrem
        have hwmem := List.mem_of_find?_eq_some hrem
        rw [beq_iff_eq] at hw
        exact hall w hwmem hw

theorem find?_mapSnd {α : Type} (l : List (Nat × α)) (g : α → α) (q : Nat × α → Bool)
    (hq : ∀ i x, q (i, g x) = q (i, x)) :
    (l.map (fun r => (r.1, g r.2))).find? q = (l.find? q).map (fun r => (r.1, g r.2)) := by
  rw [List.find?_map]
  have hfun : (q ∘ fun r : Nat × α => (r.1, g r.2)) = q := by
    funext r
    rcases r with ⟨i, x⟩
    simp [Function.comp, hq]
  rw [hfun]

theorem lastUpdated_execTouch (db : DB) (t s : String) (v : Nat) (op : TouchOp)
    (h : lastUpdatedOf db t s = some v) :
    ∃ v2 : Nat, lastUpdatedOf (execTouch db op) t s = some v2 ∧ (v2 = v ∨ v2 = op.now) := by
  rw [lastUpdatedOf] at h
  obtain ⟨⟨pid, q⟩, hfind, hlast⟩ : ∃ r, findPass? db t s = some r ∧ r.2.lastUpdated = v := by
    cases hf : findPass? db t s with
    | none => rw [hf] at h; cases h
    | some r =>
      rw [hf] at h
      exact ⟨r, rfl, by simpa using h⟩
  cases op with
  | touchAll n =>
    refine ⟨n, ?_, Or.inr rfl⟩
    show (findPass? (touchAllPasses db n).1 t s).map (·.2.lastUpdated) = some n
    have : findPass? (touchAllPasses db n).1 t s =
        (findPass? db t s).map (fun r => (r.1, { r.2 with lastUpdated := n })) := by
      rw [findPass?, findPass?]
      exact find?_mapSnd db.passes (fun p => { p with lastUpdated := n }) _ (fun i x => rfl)
    rw [this, hfind]
    rfl
  | touch t2 s2 n =>
    show ∃ v2, (findPass? (touchPass db t2 s2 n) t s).map (·.2.lastUpdated) = some v2 ∧ _
    rw [touchPass]
    cases hf2 : findPass? db t2 s2 with
    | none =>
      exact ⟨v, by rw [hfind]; simpa using hlast, Or.inl rfl⟩
    | some r2 =>
      rcases r2 with ⟨pid2, q2⟩
      have hpatch : findPass? { db with passes := patchRow db.passes pid2 (fun p => { p with lastUpdated := n }) } t s =
          (findPass? db t s).map (fun r => if r.1 = pid2 then (r.1, { r.2 with lastUpdated := n }) else r) := by
        rw [findPass?, findPass?]
        exact find?_patchRow db.passes pid2 (fun p => { p with lastUpdated := n }) _ (fun i x => rfl)
      by_cases hid : pid = pid2
      · refine ⟨n, ?_, Or.inr rfl⟩
        rw [hpatch, hfind]
        simp [hid]
      · refine ⟨v, ?_, Or.inl rfl⟩
        rw [hpatch, hfind]
        simp [hid]
        exact hlast

/-- C7 (timestamp monotonicity): over any sequence of touchPass and
touchAllPasses operations whose Date.now() readings are non-decreasing and
start at or after the observed value of the card, the observed lastUpdated
values of that card form a non-decreasing sequence. -/
theorem c7_timestamp_monotonicity :
    ∀ (ops : List TouchOp) (db : DB) (t s : String) (v0 : Nat),
      lastUpdatedOf db t s = some v0 →
      List.Chain' (· ≤ ·) (v0 :: ops.map TouchOp.now) →
      ∃ vs : List Nat, obsTimestamps db t s ops = vs.map some ∧
        List.Chain' (· ≤ ·) (v0 :: vs) := by
  intro ops
  induction ops with
  | nil =>
    intro db t s v0 h hc
    exact ⟨[], rfl, List.chain'_singleton v0⟩
  | cons op rest ih =>
    intro db t s v0 h hc
    obtain ⟨v2, h2, hv2⟩ := lastUpdated_execTouch db t s v0 op h
    rw [List.map_cons] at hc
    have hle : v0 ≤ op.now := (List.chain'_cons.mp hc).1
    have hc2 : List.Chain' (· ≤ ·) (op.now :: rest.map TouchOp.now) := (List.chain'_cons.mp hc).2
    have hv2le : v0 ≤ v2 := by
      rcases hv2 with rfl | rfl
      · exact le_refl _
      · exact hle
    have hv2now : v2 ≤ op.now := by
      rcases hv2 with rfl | rfl
      · exact hle
      · exact le_refl _
    have hc3 : List.Chain' (· ≤ ·) (v2 :: rest.map TouchOp.now) := by
      rw [List.chain'_cons'] at hc2 ⊢
      exact ⟨fun y hy => le_trans hv2now (hc2.1 y hy), hc2.2⟩
    obtain ⟨vs, hobs, hchain⟩ := ih (execTouch db op) t s v2 h2 hc3
    refine ⟨v2 :: vs, ?_, List.chain'_cons.mpr ⟨hv2le, hchain⟩⟩
    rw [obsTimestamps, h2, hobs]
    rfl


/-- C1 counterexample: registerDevice on a store holding the pass (t, s)
with token T, supplying the different token T2, leaves the stored token
equal to T2, not T: the claimed immutability fails on the code. -/
theorem c1_token_overwritten_counterexample :
    getPassAuthToken singlePassStore "t" "s" = some "T" ∧
    getPassAuthToken (registerDevice singlePassStore ⟨"d1", "pt", "t", "s", "T2"⟩ 5).1 "t" "s" =
      some "T2" ∧
    ("T2" : String) ≠ "T" := by decide

/-- C1 (amended): the SQLite findOrCreatePass leaves an existing pass row,
and in particular its stored token, unchanged; but the Convex registerDevice
upsert makes the stored token equal to the supplied token, overwriting a
differing stored token rather than keeping it. -/
theorem c1_token_immutability_amended :
    (∀ (sdb : SDB) (ptype serial tok : String) (n pid : Nat) (p : SPass),
      sdb.passes.find? (fun r => r.2.pass_type_id == ptype && r.2.serial_number == serial) =
          some (pid, p) →
      findOrCreatePass sdb ptype serial tok n = (sdb, p, false)) ∧
    (∀ (db : DB) (a : RegisterArgs) (now : Nat),
      getPassAuthToken (registerDevice db a now).1 a.passTypeIdentifier a.serialNumber =
        some a.authenticationToken) := by
  constructor
  · intro sdb ptype serial tok n pid p h
    rw [findOrCreatePass, h]
  · intro db a now
    obtain ⟨p, hp, hptok⟩ := findPass?_upsertPass (upsertDevice db a).1 a now
    have hext : findPass? (registerDevice db a now).1 a.passTypeIdentifier a.serialNumber =
        findPass? (upsertPass (upsertDevice db a).1 a now).1 a.passTypeIdentifier a.serialNumber :=
      findPass?_ext _ _ _ _ (upsertRegistration_passes _ _ _)
    rw [getPassAuthToken, hext, hp]
    exact congrArg some hptok

/-- C3 evaluation at the failing input: with three subscriptions across two
card types, getAllPushTokens returns only two entries (one per device, not
one per subscription), and the entry for devB carries topic typeA even
though the only subscription of devB is the typeB pass. -/
theorem c3_push_targets_global_topic :
    getAllPushTokens multiTypeStore = [⟨"ptokA", "typeA"⟩, ⟨"ptokB", "typeA"⟩] ∧
    multiTypeStore.registrations.length = 3 ∧
    (getAllPushTokens multiTypeStore).length = 2 ∧
    (6, ⟨1, 3⟩) ∈ multiTypeStore.registrations ∧
    getDeviceById multiTypeStore 1 = some ⟨"devB", "ptokB"⟩ ∧
    getPassById multiTypeStore 3 = some ⟨"typeB", "s2", "tok2", 5⟩ ∧
    ("typeB" : String) ≠ "typeA" := by decide

/-- C2 counterexample: a device with one stale subscription and a device
with zero subscriptions receive the exact same ([], null) result from
getPassesForDevice, so a caller cannot tell the two outcomes apart. -/
theorem c2_empty_outcomes_counterexample :
    noSubStore.registrations = [] ∧
    staleSubStore.registrations ≠ [] ∧
    findDevice? staleSubStore "dev1" = some (0, ⟨"dev1", "ptok1"⟩) ∧
    getPassesForDevice staleSubStore "dev1" "t" (some "15") = ⟨[], none⟩ ∧
    getPassesForDevice noSubStore "dev1" "t" (some "15") = ⟨[], none⟩ := by decide

theorem c4_idempotent_subscribe_witness :
    (regIdsBounded emptyStore ∧ subscribed emptyStore exampleArgs = false) ∧
    ((registerDevice emptyStore exampleArgs 1).2 = true ∧
     (registerDevice (registerDevice emptyStore exampleArgs 1).1 exampleArgs 2).2 = false ∧
     (registerDevice (registerDevice emptyStore exampleArgs 1).1 exampleArgs 2).1 =
       (registerDevice emptyStore exampleArgs 1).1 ∧
     (subRows (registerDevice (registerDevice emptyStore exampleArgs 1).1 exampleArgs 2).1
       exampleArgs).length = 1) :=
  ⟨⟨by simp [regIdsBounded, emptyStore], by decide⟩,
   c4_idempotent_subscribe emptyStore exampleArgs 1 2 (by simp [regIdsBounded, emptyStore]) (by decide)⟩

theorem c1_token_immutability_amended_witness :
    (sqliteStore.passes.find? (fun r => r.2.pass_type_id == "t" && r.2.serial_number == "s") =
        some (0, ⟨"t", "s", "T", 1⟩) ∧
      findOrCreatePass sqliteStore "t" "s" "T2" 9 = (sqliteStore, ⟨"t", "s", "T", 1⟩, false)) ∧
    getPassAuthToken (registerDevice singlePassStore ⟨"d1", "pt", "t", "s", "T2"⟩ 5).1 "t" "s" =
      some "T2" :=
  ⟨⟨by decide, c1_token_immutability_amended.1 sqliteStore "t" "s" "T2" 9 0 ⟨"t", "s", "T", 1⟩ (by decide)⟩,
   c1_token_immutability_amended.2 singlePassStore ⟨"d1", "pt", "t", "s", "T2"⟩ 5⟩

theorem c5_unregister_garbage_collection_witness :
    (findDevice? exampleStore "dev1" = some (0, ⟨"dev1", "ptok1"⟩) ∧
     findPass? exampleStore "t" "C1" = some (1, ⟨"t", "C1", "tok", 10⟩) ∧
     findReg? exampleStore 0 1 = some (3, ⟨0, 1⟩)) ∧
    (unregisterDevice exampleStore "dev1" "t" "C1").2 = true :=
  ⟨⟨by decide, by decide, by decide⟩,
   ((c5_unregister_garbage_collection exampleStore "dev1" "t" "C1").2.2.2 0 ⟨"dev1", "ptok1"⟩ 1 ⟨"t", "C1", "tok", 10⟩
     3 ⟨0, 1⟩ (by decide) (by decide) (by decide)).1⟩

theorem c8_auth_failure_uniformity_witness :
    (findPass? exampleStore "t" "nope" = none ∧
     verifyAppleAuth exampleStore "t" "nope" (some "ApplePass tok") = false) ∧
    (findPass? exampleStore "t" "C1" = some (1, ⟨"t", "C1", "tok", 10⟩) ∧
     jsSliceFrom "ApplePass bad" 10 ≠ "tok" ∧
     verifyAppleAuth exampleStore "t" "C1" (some "ApplePass bad") = false) :=
  ⟨⟨by decide, (c8_auth_failure_uniformity exampleStore "t" "nope").1 (by decide) (some "ApplePass tok")⟩,
   ⟨by decide, by decide,
    (c8_auth_failure_uniformity exampleStore "t" "C1").2 1 ⟨"t", "C1", "tok", 10⟩ (by decide) "ApplePass bad" (by decide)⟩⟩

theorem c9_missing_signing_material_skips_tick_witness :
    jsTruthyStr (none : Option String) = false ∧
    sendPushNotifications ⟨none, some "T", some "K"⟩ exampleStore 99 = (exampleStore, []) :=
  ⟨by decide, c9_missing_signing_material_skips_tick ⟨none, some "T", some "K"⟩ exampleStore 99 (Or.inl (by decide))⟩

theorem c10_invalid_since_treated_as_absent_witness :
    jsParseInt "abc" = none ∧
    getPassesForDevice exampleStore "dev1" "t" (some "abc") =
      getPassesForDevice exampleStore "dev1" "t" none :=
  ⟨by decide, c10_invalid_since_treated_as_absent exampleStore "dev1" "t" "abc" (Or.inl (by decide))⟩

theorem c2_empty_outcomes_amended_witness :
    deviceRegs noSubStore 0 = [] ∧
    getPassesForDevice noSubStore "dev1" "t" (some "15") = ⟨[], none⟩ :=
  ⟨by decide,
   (c2_empty_outcomes_amended noSubStore "dev1" "t" (some "15")).1
     (Or.inr ⟨0, ⟨"dev1", "ptok1"⟩, by decide, by decide⟩)⟩

theorem c7_timestamp_monotonicity_witness :
    (lastUpdatedOf exampleStore "t" "C1" = some 10 ∧
     List.Chain' (· ≤ ·) (10 :: [TouchOp.touch "t" "C1" 30, TouchOp.touchAll 40].map TouchOp.now)) ∧
    (∃ vs : List Nat,
      obsTimestamps exampleStore "t" "C1" [TouchOp.touch "t" "C1" 30, TouchOp.touchAll 40] =
        vs.map some ∧
      List.Chain' (· ≤ ·) (10 :: vs)) :=
  ⟨⟨by decide, by simp [List.chain'_cons, TouchOp.now]⟩,
   c7_timestamp_monotonicity [TouchOp.touch "t" "C1" 30, TouchOp.touchAll 40] exampleStore "t" "C1" 10
     (by decide) (by simp [List.chain'_cons, TouchOp.now])⟩

theorem c6_poll_correctness_witness :
    findDevice? exampleStore "dev1" = some (0, ⟨"dev1", "ptok1"⟩) ∧
    ((∀ sn : String, sn ∈ (getPassesForDevice exampleStore "dev1" "t" (some "15")).serialNumbers ↔
        ∃ p : Pass, pollMatch exampleStore 0 "t" (sinceTimestampOf (some "15")) p ∧
          p.serialNumber = sn) ∧
     ((getPassesForDevice exampleStore "dev1" "t" (some "15")).serialNumbers = [] →
       (getPassesForDevice exampleStore "dev1" "t" (some "15")).lastUpdated = none) ∧
     ((getPassesForDevice exampleStore "dev1" "t" (some "15")).serialNumbers ≠ [] →
       ∃ M : Nat, (getPassesForDevice exampleStore "dev1" "t" (some "15")).lastUpdated =
           some (toString M) ∧
         (∃ p : Pass, pollMatch exampleStore 0 "t" (sinceTimestampOf (some "15")) p ∧
           p.lastUpdated = M) ∧
         (∀ p : Pass, pollMatch exampleStore 0 "t" (sinceTimestampOf (some "15")) p →
           p.lastUpdated ≤ M))) ∧
    getPassesForDevice exampleStore "dev1" "t" (some "15") = ⟨["C2"], some "20"⟩ :=
  ⟨by decide,
   c6_poll_correctness exampleStore "dev1" "t" (some "15") 0 ⟨"dev1", "ptok1"⟩ (by decide),
   by decide⟩
